import Mathlib

/-!
Shallow embedding of the client-side session / file-management layer of the
hour-registration application (`src/static/app.js`), together with theorems
settling the spec claims about it.

JavaScript numbers that can be `NaN` (results of `Number(...)` on
non-numeric strings, and arithmetic on `undefined`) are modelled as
`Option Int`, with `none` standing for `NaN`; comparisons against `NaN`
are `false`, as in JavaScript.
-/

namespace HourReg

/-- Model of JavaScript `String.prototype.split(':')` on the character list of
a string: `"".split(':') = [""]`, separators produce empty groups. -/
def jsSplitColon : List Char → List (List Char)
  | [] => [[]]
  | c :: rest =>
    let r := jsSplitColon rest
    if c = ':' then [] :: r
    else
      match r with
      | [] => [[c]]
      | g :: gs => (c :: g) :: gs

/-- Value of a decimal digit string, `none` if any character is not a digit.
The empty string yields `some 0`. -/
def digitsVal (cs : List Char) : Option Nat :=
  cs.foldl
    (fun acc c =>
      acc.bind fun n => if c.isDigit then some (n * 10 + (c.toNat - 48)) else none)
    (some 0)

/-- Model of JavaScript `Number(s)` on the fragment exercised by the program
(decimal digit strings and the empty string): `Number("") = 0`,
`Number("08") = 8`, anything non-numeric is `NaN` (`none`). -/
def jsNumber (cs : List Char) : Option Int :=
  (digitsVal cs).map Int.ofNat

/-- `const [h, m] = str.split(':').map(Number); h * 60 + m` from
`calculateNetMinutes` (src/static/app.js:368-372).  A missing minutes
component is JavaScript `undefined`, and arithmetic on it gives `NaN`. -/
def parseClock (s : String) : Option Int :=
  match (jsSplitColon s.data).map jsNumber with
  | h :: m :: _ =>
    match h, m with
    | some hv, some mv => some (hv * 60 + mv)
    | _, _ => none
  | _ => none

/-- JavaScript `<=` on numbers that may be `NaN`: any comparison involving
`NaN` is `false`. -/
def jleq : Option Int → Option Int → Bool
  | some a, some b => a ≤ b
  | _, _ => false

/-- `calculateNetMinutes(startStr, endStr, breakMinutes)`
(src/static/app.js:365-380): returns `0` when either string is empty or when
`endTotalMin <= startTotalMin`; otherwise
`Math.max(0, durationMin - breakMinutes)`.  `NaN` propagates as `none`. -/
def calculateNetMinutes (startStr endStr : String) (breakMinutes : Int) : Option Int :=
  if startStr = "" ∨ endStr = "" then some 0
  else
    let startTotalMin := parseClock startStr
    let endTotalMin := parseClock endStr
    if jleq endTotalMin startTotalMin then some 0
    else
      match endTotalMin, startTotalMin with
      | some e, some s => some (max 0 (e - s - breakMinutes))
      | _, _ => none

/-- A work-session record as built by `saveSession` (src/static/app.js:472-481).
`netHours` is absent (`none`) on records created by this client; records
imported from elsewhere may carry it. `netMinutes` is a JavaScript number and
may be `NaN` (`none`). -/
structure Session where
  id : String
  date : String
  startTime : String
  endTime : String
  breakMinutes : Int
  note : String
  category : String
  netMinutes : Option Int
  netHours : Option ℚ := none
deriving Repr, DecidableEq

/-- `saveSession` (src/static/app.js:451-486) as a function of the in-memory
session list and the form fields; `newId` stands for the generated
`Date.now() + random` id.  Returns the new list and whether the session was
accepted (i.e. `saveData()` was triggered). -/
def saveSession (l : List Session) (newId date startTime endTime : String)
    (breakMinutes : Int) (note category : String) : List Session × Bool :=
  if date = "" ∨ startTime = "" ∨ endTime = "" then (l, false)
  else
    let netMinutes := calculateNetMinutes startTime endTime breakMinutes
    if jleq netMinutes (some 0) then (l, false)
    else
      (l ++ [{ id := newId, date := date, startTime := startTime, endTime := endTime,
               breakMinutes := breakMinutes, note := note, category := category,
               netMinutes := netMinutes, netHours := none }], true)

/-- In-place mutation of the first list element satisfying `p`, as performed on
the object returned by `sessions.find(...)`. -/
def updateFirst (p : Session → Bool) (g : Session → Session) : List Session → List Session
  | [] => []
  | s :: rest => if p s then g s :: rest else s :: updateFirst p g rest

/-- `updateSession` (src/static/app.js:512-540): finds the session by id,
assigns every field (including a recomputed `netMinutes`) directly on the
found object, and only then checks `netMinutes <= 0`; on that check it alerts
and returns without calling `saveData()`.  Returns the session list after the
call and whether `saveData()` was triggered. -/
def updateSession (l : List Session) (sessionId date startTime endTime : String)
    (breakMinutes : Int) (note category : String) : List Session × Bool :=
  if l.any (fun s => s.id = sessionId) then
    let netMinutes := calculateNetMinutes startTime endTime breakMinutes
    let l' := updateFirst (fun s => s.id = sessionId)
      (fun s => { s with
                  date := date
                  startTime := startTime
                  endTime := endTime
                  breakMinutes := breakMinutes
                  note := note
                  category := category
                  netMinutes := netMinutes }) l
    if jleq netMinutes (some 0) then (l', false) else (l', true)
  else (l, false)

/-- Outcome of the `fetch('/api/data')` in `loadData`
(src/static/app.js:180-213): the fetch throws or the response is not ok
(`failure`); the response is ok but `result.data && result.data.sessions` is
falsy (`okNoData`); or it carries a session list (`okData`). -/
inductive RemoteLoad where
  | failure
  | okNoData
  | okData (l : List Session)
deriving Repr, DecidableEq

/-- The localStorage cache under `STORAGE_KEY`, as seen by `loadData`:
`none` = no stored value, `some none` = stored but `JSON.parse` fails,
`some (some c)` = stored and parseable as the session list `c`. -/
abbrev SessionCache := Option (Option (List Session))

/-- `loadData` (src/static/app.js:180-213) as a function of the in-memory
session list `s0` at entry, the remote outcome and the cache.  Returns the
session list and the cache after the call.  Every failure path is caught
inside the function, so the model is total: no error reaches the caller. -/
def loadData (s0 : List Session) (r : RemoteLoad) (cache : SessionCache) :
    List Session × SessionCache :=
  match r with
  | .okData l => (l, some (some l))
  | .okNoData => (s0, cache)
  | .failure =>
    match cache with
    | some (some c) => (c, cache)
    | some none => ([], cache)
    | none => (s0, cache)

/-- `sessions.reduce((sum, s) => sum + (s.netHours || 0), 0)` from `saveData`
(src/static/app.js:227). -/
def totalHoursOf (l : List Session) : ℚ :=
  l.foldl (fun sum s => sum + s.netHours.getD 0) 0

/-- Observable effects of one `saveData` call. -/
structure SaveOutcome where
  cacheAfter : List Session
  pushedSessions : List Session
  pushedTotalHours : ℚ
  remoteSaved : Bool
  callerError : Bool
deriving Repr, DecidableEq

/-- `saveData` (src/static/app.js:216-242): writes the session list to
localStorage first, unconditionally; then posts
`{sessions, totalHours: reduce(... s.netHours || 0 ...)}` to the server inside
a try/catch whose failure branch only logs, so no error surfaces to the caller
(`callerError` is always `false`) and the local write is never rolled back. -/
def saveData (l : List Session) (remoteOk : Bool) : SaveOutcome :=
  { cacheAfter := l
    pushedSessions := l
    pushedTotalHours := totalHoursOf l
    remoteSaved := remoteOk
    callerError := false }

/-- `const TARGET_HOURS = 640` (src/static/app.js:3). -/
def TARGET_HOURS : Int := 640

/-- The snapshot object built by `exportJSON` (src/static/app.js:711-720). -/
structure Snapshot where
  exportDate : String
  target : Int
  sessions : List Session
deriving Repr, DecidableEq

/-- `exportJSON` (src/static/app.js:711-720), with the wall-clock
`new Date().toISOString()` supplied as `exportDate`. -/
def exportJSON (exportDate : String) (l : List Session) : Snapshot :=
  ⟨exportDate, TARGET_HOURS, l⟩

/-- Shape of a parsed import payload as discriminated by `importJSON`
(src/static/app.js:734-745): an object whose `sessions` member is an array, a
bare array, or anything else. -/
inductive ImportPayload where
  | snapshotData (s : Snapshot)
  | bareArray (l : List Session)
  | invalid
deriving Repr

/-- `importJSON` (src/static/app.js:722-754) applied to a successfully parsed
payload: replaces the entire in-memory session list for either accepted shape,
leaves it unchanged (and alerts) otherwise.  Returns the session list after
the call and whether the import was accepted. -/
def importJSON (current : List Session) (p : ImportPayload) : List Session × Bool :=
  match p with
  | .snapshotData s => (s.sessions, true)
  | .bareArray l => (l, true)
  | .invalid => (current, false)

/-- A folder record as built by `createFolder` (src/static/app.js:1728-1733). -/
structure Folder where
  id : String
  name : String
  parentId : Option String
  createdAt : String
deriving Repr, DecidableEq

/-- A file-metadata record.  Records built by `handleFiles`
(src/static/app.js:1095-1103) have exactly the first six fields; legacy
records loaded from localStorage may additionally carry an inline base64
payload in `data`. -/
structure FileMeta where
  id : String
  name : String
  size : String
  uploadedAt : String
  type : String
  parentId : Option String
  data : Option String := none
deriving Repr, DecidableEq

/-- The per-record projection performed by `saveFiles`
(src/static/app.js:864-871): keeps exactly
`{id, name, size, uploadedAt, type, parentId}` and nothing else. -/
def stripMeta (f : FileMeta) : FileMeta :=
  { id := f.id
    name := f.name
    size := f.size
    uploadedAt := f.uploadedAt
    type := f.type
    parentId := f.parentId
    data := none }

/-- What `saveFiles` leaves in the two localStorage keys. -/
structure StoredFiles where
  storedFolders : List Folder
  storedFiles : List FileMeta
deriving Repr, DecidableEq

/-- `saveFiles` (src/static/app.js:857-882): persists the folder list as-is
and the file list mapped through the six-field projection (no blob data, no
legacy `data` field). -/
def saveFiles (folders : List Folder) (uploadedFiles : List FileMeta) : StoredFiles :=
  { storedFolders := folders
    storedFiles := uploadedFiles.map stripMeta }

/-- `getMimeType` (src/static/app.js:1243-1261): maps the lower-cased final
extension to a MIME string, `application/octet-stream` otherwise. -/
def getMimeType (filename : String) : String :=
  let ext := ((filename.splitOn ".").getLastD filename).toLower
  if ext = "pdf" then "application/pdf"
  else if ext = "docx" then "application/vnd.openxmlformats-officedocument.wordprocessingml.document"
  else if ext = "doc" then "application/msword"
  else if ext = "xlsx" then "application/vnd.openxmlformats-officedocument.spreadsheetml.sheet"
  else if ext = "xls" then "application/vnd.ms-excel"
  else if ext = "pptx" then "application/vnd.openxmlformats-officedocument.presentationml.presentation"
  else if ext = "txt" then "text/plain"
  else if ext = "jpg" then "image/jpeg"
  else if ext = "jpeg" then "image/jpeg"
  else if ext = "png" then "image/png"
  else if ext = "gif" then "image/gif"
  else if ext = "zip" then "application/zip"
  else if ext = "rar" then "application/x-rar-compressed"
  else "application/octet-stream"

/-- `formatFileSize` (src/static/app.js:1151-1157).  The float
`Math.floor(Math.log(bytes)/Math.log(1024))` unit index is rendered as
explicit power-of-1024 tiers (uploads are capped at 200 MiB, so the GB tier
is the largest reachable through `processFile`), and
`Math.round(x * 100) / 100` as half-up rounding of hundredths with
JavaScript's trailing-zero-free decimal printing.  No claim inspects this
string. -/
def formatFileSize (bytes : Nat) : String :=
  if bytes = 0 then "0 Bytes"
  else
    let i := if bytes < 1024 then 0
      else if bytes < 1024 ^ 2 then 1
      else if bytes < 1024 ^ 3 then 2
      else 3
    let unit := ["Bytes", "KB", "MB", "GB"].getD i "undefined"
    let centi := (bytes * 100 + 1024 ^ i / 2) / 1024 ^ i
    let frac := centi % 100
    (toString (centi / 100)
      ++ (if frac = 0 then ""
          else if frac % 10 = 0 then "." ++ toString (frac / 10)
          else "." ++ (if frac < 10 then "0" else "") ++ toString frac))
      ++ " " ++ unit

/-- One file of an upload batch, with the nondeterministic parts of its
processing (generated id, timestamp, whether the `FileReader` read and the
IndexedDB blob write succeed) recorded as fields. -/
structure UploadFile where
  name : String
  byteSize : Nat
  type : String
  uploadedAt : String
  newId : String
  readOk : Bool
  blobWriteOk : Bool
deriving Repr, DecidableEq

/-- Processing of a single batch file by `handleFiles`
(src/static/app.js:1067-1149): the 200 MiB size gate (alert + skip), then the
`FileReader` read, the `db` initialization check (throw → alert), the blob
write to IndexedDB (`saveFileToIndexedDB`; rejection → alert); only after the
blob write resolves is the metadata record (without blob data) produced for
the in-memory list. -/
def processFile (dbReady : Bool) (parent : Option String) (f : UploadFile) :
    Option FileMeta :=
  if f.byteSize > 200 * 1024 * 1024 then none
  else if !f.readOk then none
  else if !dbReady then none
  else if !f.blobWriteOk then none
  else some
    { id := f.newId
      name := f.name
      size := formatFileSize f.byteSize
      uploadedAt := f.uploadedAt
      type := if f.type = "" then getMimeType f.name else f.type
      parentId := parent
      data := none }

/-- The `for (let file of files)` loop of `handleFiles`, threading the
in-memory metadata list and `successCount`: an accepted file appends its
record (`uploadedFiles.push(fileObj); successCount++`); a rejected or failed
file leaves both untouched and the loop continues with the rest. -/
def handleFilesGo (dbReady : Bool) (parent : Option String) (st : List FileMeta)
    (cnt : Nat) : List UploadFile → List FileMeta × Nat
  | [] => (st, cnt)
  | f :: rest =>
    match processFile dbReady parent f with
    | some r => handleFilesGo dbReady parent (st ++ [r]) (cnt + 1) rest
    | none => handleFilesGo dbReady parent st cnt rest

/-- `handleFiles(files)` (src/static/app.js:1067-1149) over a batch, started
with the current in-memory metadata list and `successCount = 0`. -/
def handleFiles (dbReady : Bool) (parent : Option String) (st : List FileMeta)
    (batch : List UploadFile) : List FileMeta × Nat :=
  handleFilesGo dbReady parent st 0 batch

/-- The in-memory file-manager state mutated by `deleteFolder`: the global
`folders` and `uploadedFiles` arrays. -/
structure FMState where
  folders : List Folder
  files : List FileMeta
deriving Repr, DecidableEq

/-- The recursive `deleteContents` closure inside `deleteFolder`
(src/static/app.js:1743-1759), with the JavaScript aliasing reproduced
exactly: `folders.filter` iterates the array captured when the filter starts
(the snapshot) while recursive calls reassign the global state, and when the
filter finishes its result — computed from the snapshot — is assigned to the
global `folders`, overwriting the recursive calls' reassignments.  The file
filter then runs on the current global `uploadedFiles`.  `fuel` bounds the
recursion depth; `folders.length + 1` suffices for any acyclic state. -/
def deleteContents (fuel : Nat) (parentId : String) (st : FMState) : FMState :=
  match fuel with
  | 0 => st
  | fuel + 1 =>
    let snapshot := st.folders
    let step := snapshot.foldl
      (fun (acc : List Folder × FMState) f =>
        if f.parentId = some parentId then (acc.1, deleteContents fuel f.id acc.2)
        else (acc.1 ++ [f], acc.2))
      ([], st)
    let st1 := { step.2 with folders := step.1 }
    { st1 with files := st1.files.filter (fun fl => fl.parentId ≠ some parentId) }

/-- `deleteFolder(folderId)` (src/static/app.js:1740-1764) after the user
confirms: runs `deleteContents(folderId)` and persists.  Note the source
never filters `folderId` itself out of `folders`. -/
def deleteFolder (folderId : String) (st : FMState) : FMState :=
  deleteContents (st.folders.length + 1) folderId st

/-! ## Helper lemmas -/

theorem handleFilesGo_fst (dbReady : Bool) (parent : Option String) :
    ∀ (batch : List UploadFile) (st : List FileMeta) (cnt : Nat),
      (handleFilesGo dbReady parent st cnt batch).1
        = st ++ batch.filterMap (processFile dbReady parent)
  | [], st, cnt => by simp [handleFilesGo]
  | f :: rest, st, cnt => by
    rw [handleFilesGo, List.filterMap_cons]
    cases h : processFile dbReady parent f with
    | none => simpa using handleFilesGo_fst dbReady parent rest st cnt
    | some r => simp [handleFilesGo_fst dbReady parent rest (st ++ [r]) (cnt + 1)]

theorem foldl_netHours_none (l : List Session) (h : ∀ s ∈ l, s.netHours = none) :
    ∀ acc : ℚ, l.foldl (fun sum s => sum + s.netHours.getD 0) acc = acc := by
  induction l with
  | nil => intro acc; rfl
  | cons s rest ih =>
    intro acc
    have hs : s.netHours = none := h s (List.mem_cons_self s rest)
    have hrest : ∀ t ∈ rest, t.netHours = none := fun t ht => h t (List.mem_cons_of_mem s ht)
    simp only [List.foldl_cons, hs]
    simpa using ih hrest acc

theorem updateFirst_mem (p : Session → Bool) (g : Session → Session) :
    ∀ (l : List Session) (s : Session), s ∈ updateFirst p g l →
      s ∈ l ∨ ∃ t ∈ l, s = g t
  | [], s, h => by simp [updateFirst] at h
  | t :: rest, s, h => by
    rw [updateFirst] at h
    by_cases hp : p t
    · rw [if_pos hp] at h
      rcases List.mem_cons.mp h with h1 | h1
      · exact Or.inr ⟨t, List.mem_cons_self t rest, h1⟩
      · exact Or.inl (List.mem_cons_of_mem t h1)
    · rw [if_neg hp] at h
      rcases List.mem_cons.mp h with h1 | h1
      · exact Or.inl (h1 ▸ List.mem_cons_self t rest)
      · rcases updateFirst_mem p g rest s h1 with h2 | ⟨u, hu, hgu⟩
        · exact Or.inl (List.mem_cons_of_mem t h2)
        · exact Or.inr ⟨u, List.mem_cons_of_mem t hu, hgu⟩

/-! ## Claim theorems -/

/-- C3: for well-formed time-of-day strings `start` and `end` (parsing to `s`
and `e` minutes since midnight) and non-negative `breakMinutes`, if
`end <= start` then `calculateNetMinutes` returns 0 regardless of the break;
otherwise it returns `max 0 ((e - s) - breakMinutes)`. -/
theorem calculateNetMinutes_spec (startStr endStr : String) (s e breakMinutes : Int)
    (hs : parseClock startStr = some s) (he : parseClock endStr = some e)
    (hb : 0 ≤ breakMinutes) :
    (e ≤ s → calculateNetMinutes startStr endStr breakMinutes = some 0)
    ∧ (s < e → calculateNetMinutes startStr endStr breakMinutes
        = some (max 0 (e - s - breakMinutes))) := by
  have h1 : startStr ≠ "" := by rintro rfl; simp [parseClock, jsSplitColon] at hs
  have h2 : endStr ≠ "" := by rintro rfl; simp [parseClock, jsSplitColon] at he
  constructor
  · intro hle
    simp [calculateNetMinutes, h1, h2, hs, he, jleq, hle]
  · intro hlt
    simp [calculateNetMinutes, h1, h2, hs, he, jleq, not_le.mpr hlt]

/-- Witness for C3 at `start = "08:30"`, `end = "17:00"`, `break = 30`. -/
theorem calculateNetMinutes_spec_witness :
    parseClock "08:30" = some 510 ∧ parseClock "17:00" = some 1020
    ∧ calculateNetMinutes "08:30" "17:00" 30 = some (max 0 (1020 - 510 - 30)) :=
  ⟨by decide, by decide,
    (calculateNetMinutes_spec "08:30" "17:00" 510 1020 30 (by decide) (by decide)
      (by decide)).2 (by decide)⟩

/-- C4 counterexample: creating the Scenario A session
`{date: 2024-03-01, start: 08:30, end: 17:00, break: 30}` succeeds, but the
recorded `netMinutes` is not 450: the interval is 510 minutes, and
510 − 30 = 480. -/
theorem saveSession_scenarioA_not_450 :
    (saveSession [] "id1" "2024-03-01" "08:30" "17:00" 30 "" "Internship").2 = true
    ∧ (saveSession [] "id1" "2024-03-01" "08:30" "17:00" 30 "" "Internship").1.map
        Session.netMinutes ≠ [some 450] := by
  refine ⟨by decide, ?_⟩
  intro h
  simp [saveSession, calculateNetMinutes, parseClock, jsSplitColon, digitsVal, jsNumber,
    jleq] at h

/-- C4 amended: creating a session with date 2024-03-01, start 08:30, end
17:00 and break 30 succeeds and produces a session whose `netMinutes` equals
480. -/
theorem saveSession_scenarioA :
    saveSession [] "id1" "2024-03-01" "08:30" "17:00" 30 "" "Internship"
      = ([{ id := "id1", date := "2024-03-01", startTime := "08:30",
            endTime := "17:00", breakMinutes := 30, note := "", category := "Internship",
            netMinutes := some 480, netHours := none }], true) := by decide

/-- C2: `updateSession` on an update whose net minutes come out `<= 0`
rejects the update (no `saveData`, so the second component is `false`), but
the found session has already been mutated in place: every field, including a
non-positive `netMinutes`, carries the new values.  This contradicts the
claimed "no mutation on rejection". -/
theorem updateSession_mutates_on_rejected_update :
    updateSession
        [{ id := "s1", date := "2024-03-01", startTime := "09:00", endTime := "17:00",
           breakMinutes := 0, note := "", category := "Internship",
           netMinutes := some 480, netHours := none }]
        "s1" "2024-03-01" "09:00" "08:00" 0 "" "Internship"
      = ([{ id := "s1", date := "2024-03-01", startTime := "09:00", endTime := "08:00",
            breakMinutes := 0, note := "", category := "Internship",
            netMinutes := some 0, netHours := none }], false) := by decide

/-- C1: `deleteFolder "f1"` on a state where folder f2 is a child of f1, f3 a
child of f2, file x lives in f3 and sibling folder g holds file y.  The claim
expects f1, f2, f3 and x all removed (leaving only g and y).  Instead, the
outer `folders.filter` — computed from its snapshot of the original array —
overwrites the recursive calls' reassignments, so only the direct child f2 is
removed, and the target folder f1 itself is never filtered out; the subtree's
files are all removed. -/
theorem deleteFolder_keeps_target_and_grandchild :
    deleteFolder "f1"
        { folders := [⟨"f1", "A", none, "t"⟩, ⟨"f2", "B", some "f1", "t"⟩,
                      ⟨"f3", "C", some "f2", "t"⟩, ⟨"g", "S", none, "t"⟩],
          files := [⟨"x", "x.txt", "5 Bytes", "t", "text/plain", some "f3", none⟩,
                    ⟨"y", "y.txt", "5 Bytes", "t", "text/plain", some "g", none⟩] }
      = { folders := [⟨"f1", "A", none, "t"⟩, ⟨"f3", "C", some "f2", "t"⟩,
                      ⟨"g", "S", none, "t"⟩],
          files := [⟨"y", "y.txt", "5 Bytes", "t", "text/plain", some "g", none⟩] } := by
  decide

/-- C5: when the remote fetch fails, `loadData` falls back to the localStorage
cache: a parseable cached list `C` becomes the in-memory session list; with an
unparseable or absent cache the session list (empty at the program's single
`loadData()` call site, app initialization) stays empty.  The model is a total
function: every failure is caught inside `loadData`, none reaches the
caller. -/
theorem loadData_remote_failure_fallback (s0 C : List Session) :
    (loadData s0 .failure (some (some C))).1 = C
    ∧ (loadData [] .failure (some none)).1 = []
    ∧ (loadData [] .failure none).1 = [] :=
  ⟨rfl, rfl, rfl⟩

/-- C6: `saveData` writes the in-memory list `l` to the localStorage cache
unconditionally — the cache content after the call equals `l` whether the
remote push succeeds or fails — and no error surfaces to the caller in either
case. -/
theorem saveData_local_first_no_rollback (l : List Session) (remoteOk : Bool) :
    (saveData l remoteOk).cacheAfter = l
    ∧ (saveData l remoteOk).callerError = false :=
  ⟨rfl, rfl⟩

/-- C7: in an upload batch, (i) the in-memory metadata list after the batch is
the original list plus one record per accepted file, in order; (ii) a file
over 200 MiB is never accepted; (iii) dropping such a file changes nothing
else — the rest of the batch is processed identically; (iv) an accepted
record exists only if the blob write succeeded, and it embeds no blob data
and is keyed by the freshly generated id. -/
theorem handleFiles_spec (dbReady : Bool) (parent : Option String)
    (st : List FileMeta) (batch : List UploadFile) :
    (handleFiles dbReady parent st batch).1
        = st ++ batch.filterMap (processFile dbReady parent)
    ∧ (∀ f : UploadFile, 200 * 1024 * 1024 < f.byteSize →
        processFile dbReady parent f = none)
    ∧ (∀ (big : UploadFile) (rest : List UploadFile), 200 * 1024 * 1024 < big.byteSize →
        handleFiles dbReady parent st (big :: rest) = handleFiles dbReady parent st rest)
    ∧ (∀ (f : UploadFile) (r : FileMeta), processFile dbReady parent f = some r →
        f.blobWriteOk = true ∧ r.data = none ∧ r.id = f.newId) := by
  refine ⟨handleFilesGo_fst dbReady parent batch st 0, ?_, ?_, ?_⟩
  · intro f hf
    simp [processFile, hf]
  · intro big rest hbig
    have hnone : processFile dbReady parent big = none := by simp [processFile, hbig]
    simp [handleFiles, handleFilesGo, hnone]
  · intro f r hr
    by_cases hsize : 200 * 1024 * 1024 < f.byteSize
    · simp [processFile, hsize] at hr
    · by_cases hread : f.readOk
      · by_cases hdb : dbReady
        · by_cases hblob : f.blobWriteOk
          · refine ⟨hblob, ?_, ?_⟩ <;>
              · simp [processFile, hsize, hread, hdb, hblob] at hr
                simp [← hr]
          · simp [processFile, hsize, hread, hdb, hblob] at hr
        · simp [processFile, hsize, hread, hdb] at hr
      · simp [processFile, hsize, hread] at hr

/-- Witness for C7: a 200 MiB + 1 byte file is rejected and the remaining
batch is processed as if it were absent; a 5-byte accepted file's record
carries no blob data. -/
theorem handleFiles_spec_witness :
    processFile true none ⟨"big.bin", 209715201, "", "t0", "idA", true, true⟩ = none
    ∧ handleFiles true none []
        [⟨"big.bin", 209715201, "", "t0", "idA", true, true⟩,
         ⟨"a.txt", 5, "text/plain", "t1", "idB", true, true⟩]
      = handleFiles true none [] [⟨"a.txt", 5, "text/plain", "t1", "idB", true, true⟩] :=
  ⟨(handleFiles_spec true none [] []).2.1 _ (by decide),
   (handleFiles_spec true none []
      [⟨"a.txt", 5, "text/plain", "t1", "idB", true, true⟩]).2.2.1 _ _ (by decide)⟩

/-- C8: `importJSON` applied to the snapshot produced by `exportJSON`
reproduces the exported session list exactly, replacing the whole in-memory
list (the prior `current` list does not influence the result), and the bare
session-array shape is accepted with the same effect. -/
theorem export_import_roundtrip (current l : List Session) (d : String) :
    (importJSON current (.snapshotData (exportJSON d l))).1 = l
    ∧ (importJSON current (.bareArray l)).1 = l :=
  ⟨rfl, rfl⟩

/-- C9: every record `saveFiles` persists is the six-field projection
`{id, name, size, uploadedAt, type, parentId}` of the in-memory record — in
particular its legacy inline `data` payload, if any, is dropped from durable
metadata by whichever operation next triggers `saveFiles`. -/
theorem saveFiles_drops_legacy_data (folderList : List Folder)
    (files : List FileMeta) :
    (saveFiles folderList files).storedFiles = files.map stripMeta
    ∧ (∀ f : FileMeta, stripMeta f =
        { id := f.id, name := f.name, size := f.size, uploadedAt := f.uploadedAt,
          type := f.type, parentId := f.parentId, data := none })
    ∧ ∀ r ∈ (saveFiles folderList files).storedFiles, r.data = none := by
  refine ⟨rfl, fun f => rfl, ?_⟩
  intro r hr
  rcases List.mem_map.mp hr with ⟨f, _, rfl⟩
  rfl

/-- Witness for C9: the stored copy of a legacy record carrying an inline
base64 payload has `data = none`. -/
theorem saveFiles_drops_legacy_data_witness :
    (stripMeta ⟨"f1", "a.txt", "5 Bytes", "t", "text/plain", none, some "QUFBQQ=="⟩).data
      = none :=
  (saveFiles_drops_legacy_data []
      [⟨"f1", "a.txt", "5 Bytes", "t", "text/plain", none, some "QUFBQQ=="⟩]).2.2
    _ (by decide)

/-- C10: the `totalHours` in every `saveData` push is the sum of the sessions'
`netHours || 0`; sessions appended by `saveSession` carry `netHours = none`,
and `updateSession` never sets `netHours`; hence for a list of sessions all
lacking `netHours` the pushed `totalHours` is 0 regardless of the recorded
`netMinutes`. -/
theorem saveData_pushes_zero_totalHours (l : List Session) (remoteOk : Bool)
    (h : ∀ s ∈ l, s.netHours = none) :
    (saveData l remoteOk).pushedTotalHours = 0
    ∧ (∀ (l₂ : List Session) (newId date startT endT : String) (bm : Int)
        (note cat : String) (s : Session),
        s ∈ (saveSession l₂ newId date startT endT bm note cat).1 →
          s ∈ l₂ ∨ s.netHours = none)
    ∧ (∀ (sid date startT endT : String) (bm : Int) (note cat : String),
        ∀ s ∈ (updateSession l sid date startT endT bm note cat).1,
          s.netHours = none) := by
  refine ⟨foldl_netHours_none l h 0, ?_, ?_⟩
  · intro l₂ newId date startT endT bm note cat s hs
    unfold saveSession at hs
    by_cases hempty : date = "" ∨ startT = "" ∨ endT = ""
    · rw [if_pos hempty] at hs
      exact Or.inl hs
    · rw [if_neg hempty] at hs
      by_cases hle : jleq (calculateNetMinutes startT endT bm) (some 0)
      · simp only [hle, if_pos] at hs
        exact Or.inl hs
      · simp only [hle, Bool.false_eq_true, if_false] at hs
        rcases List.mem_append.mp hs with h1 | h1
        · exact Or.inl h1
        · right
          rcases List.mem_singleton.mp h1 with rfl
          rfl
  · intro sid date startT endT bm note cat s hs
    unfold updateSession at hs
    by_cases hfound : l.any (fun t => t.id = sid)
    · rw [if_pos hfound] at hs
      by_cases hle : jleq (calculateNetMinutes startT endT bm) (some 0)
      · simp only [hle, if_true] at hs
        rcases updateFirst_mem _ _ l s hs with h1 | ⟨t, ht, rfl⟩
        · exact h s h1
        · exact h t ht
      · simp only [hle, Bool.false_eq_true, if_false] at hs
        rcases updateFirst_mem _ _ l s hs with h1 | ⟨t, ht, rfl⟩
        · exact h s h1
        · exact h t ht
    · rw [if_neg hfound] at hs
      exact h s hs

/-- Witness for C10: a one-session list created without `netHours` pushes
`totalHours = 0`. -/
theorem saveData_pushes_zero_totalHours_witness :
    (saveData
        [{ id := "s1", date := "2024-03-01", startTime := "08:30", endTime := "17:00",
           breakMinutes := 30, note := "", category := "Internship",
           netMinutes := some 480, netHours := none }] true).pushedTotalHours = 0 :=
  (saveData_pushes_zero_totalHours _ true (by decide)).1

end HourReg
